import Mathlib

/-!
Verification of the `realm-web-rs` MongoDB Atlas Data API client
(`src/lib.rs`) against its natural-language specification.

The embedding is shallow: JSON values are an inductive type, serde
serialization of the request structs is an explicit function to ordered
association lists, serde deserialization of the response structs is a
function `Json → Option _` (`none` models a serde decode error), and each
action method of `Client` is a pure function from an abstract HTTP outcome
(transport failure, or a response with a status and body) to
`Except Error _`.  Each action issues a single POST by construction; the
request it posts (URL, headers, serialized body) is captured by a
companion `_post` definition.
-/

set_option linter.unusedVariables false

namespace RealmWeb

/-- JSON values as handled by `serde_json`.  Objects are ordered
association lists, matching serialization order; numbers are modelled as
integers (no claim touches non-integer numbers). -/
inductive Json where
  | null : Json
  | bool : Bool → Json
  | num : Int → Json
  | str : String → Json
  | arr : List Json → Json
  | obj : List (String × Json) → Json

/-- `bson::Document`: an ordered mapping from field names to values,
opaque to the client (it is serialized as a JSON object and never
inspected). -/
abbrev Document := List (String × Json)

/-- `bson::oid::ObjectId`, carried as its 24-character hex string. -/
structure ObjectId where
  hex : String

/-- `ApiVersion` from `src/lib.rs`: a single variant `v1`. -/
inductive ApiVersion where
  | v1 : ApiVersion

/-- `Client` from `src/lib.rs`: static configuration. -/
structure Client where
  application_id : String
  api_token : String
  api_version : ApiVersion
  deployment_region : Option String

/-- `Client::get_url` (src/lib.rs:35-47): the base URL
`https://{region.}data.mongodb-api.com/app/{application_id}/endpoint/data/{api_version}`,
where the region segment is `{region}.` when a region is configured and
empty otherwise. -/
def Client.get_url (c : Client) : String :=
  "https://"
    ++ (match c.deployment_region with
        | some x => x ++ "."
        | none => "")
    ++ "data.mongodb-api.com/app/"
    ++ c.application_id
    ++ "/endpoint/data/"
    ++ (match c.api_version with
        | ApiVersion.v1 => "v1")

/-- Validity of a single character in an HTTP header value, the check
performed by `http::HeaderValue::from_str`: a byte is accepted iff it is
`\t` or in `32..=255` excluding `127`.  All bytes of a non-ASCII
character's UTF-8 encoding are `≥ 128` and hence accepted, so the
byte-level check is equivalent to this per-character one. -/
def headerCharValid (c : Char) : Bool :=
  c = '\t' || (32 ≤ c.toNat && c.toNat ≠ 127)

/-- A string is a valid HTTP header value iff all its characters are. -/
def headerValueValid (s : String) : Bool :=
  s.toList.all headerCharValid

/-- `Client::get_auth_headers` (src/lib.rs:49-55).  The Rust code calls
`HeaderValue::from_str(&self.api_token).unwrap()`, which panics when the
token is not a valid header value; `none` models that panic. -/
def Client.get_auth_headers (c : Client) : Option (List (String × String)) :=
  if headerValueValid c.api_token then
    some [("apikey", c.api_token),
          ("content-type", "application/json"),
          ("accept", "application/json")]
  else
    none

/-- `Collection` from `src/lib.rs`: the collection selector. -/
structure Collection where
  data_source : String
  database : String
  collection : String

/-- Serialization of `Collection` (`#[serde(rename_all = "camelCase")]`):
three string fields with camelCase keys. -/
def Collection.serialize (c : Collection) : List (String × Json) :=
  [("dataSource", Json.str c.data_source),
   ("database", Json.str c.database),
   ("collection", Json.str c.collection)]

/-- An optional struct field under `#[serde(skip_serializing_if = "Option::is_none")]`:
absent values contribute no key at all. -/
def optField (name : String) (v : Option Json) : List (String × Json) :=
  match v with
  | none => []
  | some j => [(name, j)]

/-- `FindRequest` (src/lib.rs:385-400). -/
structure FindRequest where
  collection : Collection
  filter : Option Document
  projection : Option Document
  sort : Option Document
  limit : Option Int
  skip : Option Int

/-- Serde serialization of `FindRequest`: the collection selector is
`#[serde(flatten)]`ed at the top level; every optional field is skipped
when `None`. -/
def FindRequest.serialize (r : FindRequest) : List (String × Json) :=
  r.collection.serialize
    ++ optField "filter" (r.filter.map Json.obj)
    ++ optField "projection" (r.projection.map Json.obj)
    ++ optField "sort" (r.sort.map Json.obj)
    ++ optField "limit" (r.limit.map Json.num)
    ++ optField "skip" (r.skip.map Json.num)

/-- `InsertRequest` (src/lib.rs:402-412). -/
structure InsertRequest where
  collection : Collection
  document : Option Document
  documents : Option (List Document)

/-- Serde serialization of `InsertRequest`. -/
def InsertRequest.serialize (r : InsertRequest) : List (String × Json) :=
  r.collection.serialize
    ++ optField "document" (r.document.map Json.obj)
    ++ optField "documents" (r.documents.map (fun ds => Json.arr (ds.map Json.obj)))

/-- `UpdateRequest` (src/lib.rs:446-456). -/
structure UpdateRequest where
  collection : Collection
  filter : Document
  update : Document
  upsert : Option Bool

/-- Serde serialization of `UpdateRequest`: `filter` and `update` are
required, `upsert` is skipped when `None`. -/
def UpdateRequest.serialize (r : UpdateRequest) : List (String × Json) :=
  r.collection.serialize
    ++ [("filter", Json.obj r.filter), ("update", Json.obj r.update)]
    ++ optField "upsert" (r.upsert.map Json.bool)

/-- `ReplaceRequest` (src/lib.rs:458-468). -/
structure ReplaceRequest where
  collection : Collection
  filter : Document
  replacement : Document
  upsert : Option Bool

/-- Serde serialization of `ReplaceRequest`. -/
def ReplaceRequest.serialize (r : ReplaceRequest) : List (String × Json) :=
  r.collection.serialize
    ++ [("filter", Json.obj r.filter), ("replacement", Json.obj r.replacement)]
    ++ optField "upsert" (r.upsert.map Json.bool)

/-- `DeleteRequest` (src/lib.rs:477-484). -/
structure DeleteRequest where
  collection : Collection
  filter : Document

/-- Serde serialization of `DeleteRequest`. -/
def DeleteRequest.serialize (r : DeleteRequest) : List (String × Json) :=
  r.collection.serialize ++ [("filter", Json.obj r.filter)]

/-- `AggregationRequest` (src/lib.rs:486-493). -/
structure AggregationRequest where
  collection : Collection
  pipeline : List Document

/-- Serde serialization of `AggregationRequest`. -/
def AggregationRequest.serialize (r : AggregationRequest) : List (String × Json) :=
  r.collection.serialize ++ [("pipeline", Json.arr (r.pipeline.map Json.obj))]

/-! ## Response deserialization

Each `decode…Response` function models the derived serde `Deserialize`
impl applied to a JSON body (the composition of `res.json::<T>()`'s parse
and decode steps; the parse step is abstracted by handing the function an
already-parsed `Json`).  `none` models a serde error.  Only JSON-object
bodies are modelled: no caller of this API produces serde's positional
sequence form, and derived deserialization ignores unknown object keys. -/

/-- serde field access on a JSON object: first binding of the name. -/
def getField (fields : List (String × Json)) (name : String) : Option Json :=
  match fields with
  | [] => none
  | (k, v) :: rest => if k = name then some v else getField rest name

/-- A required struct field: missing key is a serde error, and the value
must decode. -/
def decodeReqField (fields : List (String × Json)) (name : String)
    (dec : Json → Option α) : Option α :=
  match getField fields name with
  | none => none
  | some j => dec j

/-- An `Option<T>` struct field: a missing key or an explicit `null`
decodes to `None`; any other value must decode as `T`. -/
def decodeOptField (fields : List (String × Json)) (name : String)
    (dec : Json → Option α) : Option (Option α) :=
  match getField fields name with
  | none => some none
  | some Json.null => some none
  | some j => (dec j).map some

/-- `Deserialize` for `bson::Document`: any JSON object. -/
def decodeDocument (j : Json) : Option Document :=
  match j with
  | Json.obj fields => some fields
  | _ => none

/-- `Deserialize` for `Vec<Document>`. -/
def decodeDocumentList (j : Json) : Option (List Document) :=
  match j with
  | Json.arr xs => xs.mapM decodeDocument
  | _ => none

/-- Hexadecimal digit test used by `ObjectId::parse_str`. -/
def isHexDigit (c : Char) : Bool :=
  c.isDigit || ('a' ≤ c && c ≤ 'f') || ('A' ≤ c && c ≤ 'F')

/-- `Deserialize` for `bson::oid::ObjectId` from plain JSON: the extended
JSON form `{"$oid": "<24 hex chars>"}`. -/
def decodeObjectId (j : Json) : Option ObjectId :=
  match j with
  | Json.obj [(k, Json.str s)] =>
    if k = "$oid" && s.length = 24 && s.toList.all isHexDigit then
      some ⟨s⟩
    else
      none
  | _ => none

/-- `Deserialize` for `Vec<ObjectId>`. -/
def decodeObjectIdList (j : Json) : Option (List ObjectId) :=
  match j with
  | Json.arr xs => xs.mapM decodeObjectId
  | _ => none

/-- An `i32` field: an integer in `i32` range; anything else is an error. -/
def decodeI32 (j : Json) : Option Int :=
  match j with
  | Json.num n => if -2147483648 ≤ n ∧ n < 2147483648 then some n else none
  | _ => none

/-- `FindResponse` (src/lib.rs:379-383): both fields optional. -/
structure FindResponse where
  document : Option Document
  documents : Option (List Document)

/-- `Deserialize` for `FindResponse`.  The struct has no rename attribute,
and its field names `document`/`documents` are already lowerCamelCase. -/
def decodeFindResponse (j : Json) : Option FindResponse :=
  match j with
  | Json.obj fields => do
    let d ← decodeOptField fields "document" decodeDocument
    let ds ← decodeOptField fields "documents" decodeDocumentList
    pure ⟨d, ds⟩
  | _ => none

/-- `InsertResponse` (src/lib.rs:414-419): both fields optional. -/
structure InsertResponse where
  inserted_id : Option ObjectId
  inserted_ids : Option (List ObjectId)

/-- `Deserialize` for `InsertResponse`.  Unlike every other response
struct in `src/lib.rs`, `InsertResponse` carries no
`#[serde(rename_all = "camelCase")]` attribute, so the JSON keys it reads
are the raw Rust field names `inserted_id` and `inserted_ids`, not
`insertedId`/`insertedIds`. -/
def decodeInsertResponse (j : Json) : Option InsertResponse :=
  match j with
  | Json.obj fields => do
    let i ← decodeOptField fields "inserted_id" decodeObjectId
    let is ← decodeOptField fields "inserted_ids" decodeObjectIdList
    pure ⟨i, is⟩
  | _ => none

/-- `UpdateResponse` (src/lib.rs:421-428): two required counts, optional
upserted id. -/
structure UpdateResponse where
  matched_count : Int
  modified_count : Int
  upserted_id : Option ObjectId

/-- `Deserialize` for `UpdateResponse` (`rename_all = "camelCase"`). -/
def decodeUpdateResponse (j : Json) : Option UpdateResponse :=
  match j with
  | Json.obj fields => do
    let m ← decodeReqField fields "matchedCount" decodeI32
    let md ← decodeReqField fields "modifiedCount" decodeI32
    let u ← decodeOptField fields "upsertedId" decodeObjectId
    pure ⟨m, md, u⟩
  | _ => none

/-- `ReplaceResponse` (src/lib.rs:430-437): same shape as
`UpdateResponse`. -/
structure ReplaceResponse where
  matched_count : Int
  modified_count : Int
  upserted_id : Option ObjectId

/-- `Deserialize` for `ReplaceResponse` (`rename_all = "camelCase"`). -/
def decodeReplaceResponse (j : Json) : Option ReplaceResponse :=
  match j with
  | Json.obj fields => do
    let m ← decodeReqField fields "matchedCount" decodeI32
    let md ← decodeReqField fields "modifiedCount" decodeI32
    let u ← decodeOptField fields "upsertedId" decodeObjectId
    pure ⟨m, md, u⟩
  | _ => none

/-- `DeleteResponse` (src/lib.rs:439-444): one required count. -/
structure DeleteResponse where
  deleted_count : Int

/-- `Deserialize` for `DeleteResponse` (`rename_all = "camelCase"`). -/
def decodeDeleteResponse (j : Json) : Option DeleteResponse :=
  match j with
  | Json.obj fields => do
    let d ← decodeReqField fields "deletedCount" decodeI32
    pure ⟨d⟩
  | _ => none

/-- `AggregationResponse` (src/lib.rs:470-475): one required document
list. -/
structure AggregationResponse where
  documents : List Document

/-- `Deserialize` for `AggregationResponse` (`rename_all = "camelCase"`;
`documents` is already lowerCamelCase). -/
def decodeAggregationResponse (j : Json) : Option AggregationResponse :=
  match j with
  | Json.obj fields => do
    let ds ← decodeReqField fields "documents" decodeDocumentList
    pure ⟨ds⟩
  | _ => none

/-! ## The HTTP round trip

Every action method in `src/lib.rs` is the same pattern: serialize the
request, POST it, and then
  - a serde serialization error becomes `Error {status_code: None, error: "Format error: …"}`,
  - a transport error becomes `Error {status_code: None, error: "Failed to send request: …"}`,
  - a non-2xx status becomes `Error {status_code: Some(status), error: "; content: " + body-text}`
    with the body text read as `res.text().await.unwrap_or_default()`,
  - a body that fails to parse or decode becomes
    `Error {status_code: None, error: "Failed to deserialize response: …"}`,
  - otherwise the decoded response is returned.
No retry is performed: each action consumes exactly one HTTP outcome. -/

/-- `Error` from `src/lib.rs`: optional status code plus message. -/
structure Error where
  status_code : Option Nat
  error : String

/-- The outcome of the single `send().await` of an action: either a
transport failure (carrying the debug text of the reqwest error), or a
response with a status code, a body readable as text (`none` when the
body cannot be read) and, independently, the body parsed as JSON (`none`
when it is unreadable or not valid JSON). -/
inductive HttpOutcome where
  | sendFailure : String → HttpOutcome
  | response : Nat → Option String → Option Json → HttpOutcome

/-- `reqwest::StatusCode::is_success`: status in `200..=299`. -/
def statusIsSuccess (s : Nat) : Bool :=
  200 ≤ s && s < 300

/-- The message of a response-decode failure.  The Rust code appends the
debug text of the reqwest error; that text is abstracted away, only the
discriminating prefix is kept. -/
def decodeFailureMsg : String :=
  "Failed to deserialize response: "

/-- The shared request/response pipeline of every action method
(src/lib.rs:82-92 and its nine clones): takes the result of
`serde_json::to_string` on the request (error text abstracted as a
string), the response decoder, and the HTTP outcome. -/
def runAction (body : Except String (List (String × Json)))
    (dec : Json → Option α) (out : HttpOutcome) : Except Error α :=
  match body with
  | Except.error e => Except.error ⟨none, "Format error: " ++ e⟩
  | Except.ok _ =>
    match out with
    | HttpOutcome.sendFailure msg =>
      Except.error ⟨none, "Failed to send request: " ++ msg⟩
    | HttpOutcome.response status bodyText bodyJson =>
      if statusIsSuccess status then
        match bodyJson with
        | some j =>
          match dec j with
          | some r => Except.ok r
          | none => Except.error ⟨none, decodeFailureMsg⟩
        | none => Except.error ⟨none, decodeFailureMsg⟩
      else
        Except.error ⟨some status, "; content: " ++ bodyText.getD ""⟩

/-- The one HTTP POST an action issues: URL, headers (`none` when header
construction panics), serialized body. -/
structure PostRequest where
  url : String
  headers : Option (List (String × String))
  body : List (String × Json)

/-- The request built by `Client::find_one` (src/lib.rs:73-80): `sort`,
`limit` and `skip` are hard-coded to `None`. -/
def Client.find_one_req (collection : Collection)
    (filter projection : Option Document) : FindRequest :=
  ⟨collection, filter, projection, none, none, none⟩

/-- The POST issued by `Client::find_one`. -/
def Client.find_one_post (c : Client) (collection : Collection)
    (filter projection : Option Document) : PostRequest :=
  ⟨c.get_url ++ "/action/findOne", c.get_auth_headers,
   (Client.find_one_req collection filter projection).serialize⟩

/-- `Client::find_one` (src/lib.rs:66-93) as a function of the HTTP
outcome. -/
def Client.find_one (c : Client) (collection : Collection)
    (filter projection : Option Document) (out : HttpOutcome) :
    Except Error FindResponse :=
  runAction (Except.ok (Client.find_one_req collection filter projection).serialize)
    decodeFindResponse out

/-- The POST issued by `Client::find`. -/
def Client.find_post (c : Client) (collection : Collection)
    (filter projection sort : Option Document) (limit skip : Option Int) :
    PostRequest :=
  ⟨c.get_url ++ "/action/find", c.get_auth_headers,
   (FindRequest.mk collection filter projection sort limit skip).serialize⟩

/-- `Client::find` (src/lib.rs:112-142). -/
def Client.find (c : Client) (collection : Collection)
    (filter projection sort : Option Document) (limit skip : Option Int)
    (out : HttpOutcome) : Except Error FindResponse :=
  runAction
    (Except.ok (FindRequest.mk collection filter projection sort limit skip).serialize)
    decodeFindResponse out

/-- The POST issued by `Client::insert_one`: `document = Some(document)`,
`documents = None`. -/
def Client.insert_one_post (c : Client) (collection : Collection)
    (document : Document) : PostRequest :=
  ⟨c.get_url ++ "/action/insertOne", c.get_auth_headers,
   (InsertRequest.mk collection (some document) none).serialize⟩

/-- `Client::insert_one` (src/lib.rs:147-169). -/
def Client.insert_one (c : Client) (collection : Collection)
    (document : Document) (out : HttpOutcome) : Except Error InsertResponse :=
  runAction (Except.ok (InsertRequest.mk collection (some document) none).serialize)
    decodeInsertResponse out

/-- The POST issued by `Client::insert`: `document = None`,
`documents = Some(documents)`. -/
def Client.insert_post (c : Client) (collection : Collection)
    (documents : List Document) : PostRequest :=
  ⟨c.get_url ++ "/action/insertMany", c.get_auth_headers,
   (InsertRequest.mk collection none (some documents)).serialize⟩

/-- `Client::insert` (src/lib.rs:174-196), the insert-many action. -/
def Client.insert (c : Client) (collection : Collection)
    (documents : List Document) (out : HttpOutcome) : Except Error InsertResponse :=
  runAction (Except.ok (InsertRequest.mk collection none (some documents)).serialize)
    decodeInsertResponse out

/-- The POST issued by `Client::update_one`. -/
def Client.update_one_post (c : Client) (collection : Collection)
    (filter update : Document) (upsert : Option Bool) : PostRequest :=
  ⟨c.get_url ++ "/action/updateOne", c.get_auth_headers,
   (UpdateRequest.mk collection filter update upsert).serialize⟩

/-- `Client::update_one` (src/lib.rs:204-229). -/
def Client.update_one (c : Client) (collection : Collection)
    (filter update : Document) (upsert : Option Bool) (out : HttpOutcome) :
    Except Error UpdateResponse :=
  runAction (Except.ok (UpdateRequest.mk collection filter update upsert).serialize)
    decodeUpdateResponse out

/-- The POST issued by `Client::update`. -/
def Client.update_post (c : Client) (collection : Collection)
    (filter update : Document) (upsert : Option Bool) : PostRequest :=
  ⟨c.get_url ++ "/action/updateMany", c.get_auth_headers,
   (UpdateRequest.mk collection filter update upsert).serialize⟩

/-- `Client::update` (src/lib.rs:238-263), the update-many action. -/
def Client.update (c : Client) (collection : Collection)
    (filter update : Document) (upsert : Option Bool) (out : HttpOutcome) :
    Except Error UpdateResponse :=
  runAction (Except.ok (UpdateRequest.mk collection filter update upsert).serialize)
    decodeUpdateResponse out

/-- The POST issued by `Client::replace_one`. -/
def Client.replace_one_post (c : Client) (collection : Collection)
    (filter replacement : Document) (upsert : Option Bool) : PostRequest :=
  ⟨c.get_url ++ "/action/replaceOne", c.get_auth_headers,
   (ReplaceRequest.mk collection filter replacement upsert).serialize⟩

/-- `Client::replace_one` (src/lib.rs:272-297). -/
def Client.replace_one (c : Client) (collection : Collection)
    (filter replacement : Document) (upsert : Option Bool) (out : HttpOutcome) :
    Except Error ReplaceResponse :=
  runAction (Except.ok (ReplaceRequest.mk collection filter replacement upsert).serialize)
    decodeReplaceResponse out

/-- The POST issued by `Client::delete_one`. -/
def Client.delete_one_post (c : Client) (collection : Collection)
    (filter : Document) : PostRequest :=
  ⟨c.get_url ++ "/action/deleteOne", c.get_auth_headers,
   (DeleteRequest.mk collection filter).serialize⟩

/-- `Client::delete_one` (src/lib.rs:302-323). -/
def Client.delete_one (c : Client) (collection : Collection)
    (filter : Document) (out : HttpOutcome) : Except Error DeleteResponse :=
  runAction (Except.ok (DeleteRequest.mk collection filter).serialize)
    decodeDeleteResponse out

/-- The POST issued by `Client::delete`. -/
def Client.delete_post (c : Client) (collection : Collection)
    (filter : Document) : PostRequest :=
  ⟨c.get_url ++ "/action/deleteMany", c.get_auth_headers,
   (DeleteRequest.mk collection filter).serialize⟩

/-- `Client::delete` (src/lib.rs:328-349), the delete-many action. -/
def Client.delete (c : Client) (collection : Collection)
    (filter : Document) (out : HttpOutcome) : Except Error DeleteResponse :=
  runAction (Except.ok (DeleteRequest.mk collection filter).serialize)
    decodeDeleteResponse out

/-- The POST issued by `Client::aggregate`. -/
def Client.aggregate_post (c : Client) (collection : Collection)
    (pipeline : List Document) : PostRequest :=
  ⟨c.get_url ++ "/action/aggregate", c.get_auth_headers,
   (AggregationRequest.mk collection pipeline).serialize⟩

/-- `Client::aggregate` (src/lib.rs:354-375). -/
def Client.aggregate (c : Client) (collection : Collection)
    (pipeline : List Document) (out : HttpOutcome) :
    Except Error AggregationResponse :=
  runAction (Except.ok (AggregationRequest.mk collection pipeline).serialize)
    decodeAggregationResponse out

/-! ## Claims -/

/-- C4: for every client configuration the derived base URL equals
`https://{region.}data.mongodb-api.com/app/{application_id}/endpoint/data/v1`:
when no deployment region is set the URL contains no region segment, and
when region `r` is set the host part begins with `r.` (the region segment
with its trailing dot). -/
theorem claim_C4_get_url (c : Client) :
    (c.deployment_region = none →
      c.get_url = "https://data.mongodb-api.com/app/" ++ c.application_id
        ++ "/endpoint/data/v1") ∧
    (∀ r : String, c.deployment_region = some r →
      c.get_url = "https://" ++ r ++ "." ++ "data.mongodb-api.com/app/"
        ++ c.application_id ++ "/endpoint/data/v1") := by
  obtain ⟨app, tok, v, reg⟩ := c
  cases v
  refine ⟨fun h => ?_, fun r h => ?_⟩ <;> subst h <;>
    simp [Client.get_url, String.append_assoc]

/-- Witness for C4 at a concrete configuration, once with no region and
once with region `eu-central-1.aws`. -/
theorem claim_C4_get_url_witness :
    (Client.mk "app0" "tok" ApiVersion.v1 none).get_url =
        "https://data.mongodb-api.com/app/" ++ "app0" ++ "/endpoint/data/v1" ∧
    (Client.mk "app0" "tok" ApiVersion.v1 (some "eu-central-1.aws")).get_url =
        "https://" ++ "eu-central-1.aws" ++ "." ++ "data.mongodb-api.com/app/"
          ++ "app0" ++ "/endpoint/data/v1" :=
  ⟨(claim_C4_get_url _).1 rfl, (claim_C4_get_url _).2 _ rfl⟩

/-- C8: header assembly attaches exactly the three headers `apikey` (the
raw token; HTTP header names are case-insensitive, the code registers the
lowercase form), `content-type: application/json` and
`accept: application/json`, and is total when the token is a valid HTTP
header-value string; an invalid token makes header construction fail
fatally (`none` models the `unwrap` panic). -/
theorem claim_C8_auth_headers (c : Client) :
    (headerValueValid c.api_token = true →
      c.get_auth_headers =
        some [("apikey", c.api_token), ("content-type", "application/json"),
              ("accept", "application/json")]) ∧
    (headerValueValid c.api_token = false → c.get_auth_headers = none) := by
  constructor <;> intro h <;> simp [Client.get_auth_headers, h]

/-- Witness for C8: a concrete valid token yields the three headers, and
a token containing a newline (invalid in a header value) panics. -/
theorem claim_C8_auth_headers_witness :
    (Client.mk "app0" "token-0" ApiVersion.v1 none).get_auth_headers =
        some [("apikey", "token-0"), ("content-type", "application/json"),
              ("accept", "application/json")] ∧
    (Client.mk "app0" "bad\ntoken" ApiVersion.v1 none).get_auth_headers = none :=
  ⟨(claim_C8_auth_headers _).1 (by decide), (claim_C8_auth_headers _).2 (by decide)⟩

/-- C1: every optional request field whose value is absent (`filter`,
`projection`, `sort`, `limit`, `skip` in find requests; `upsert` in
update/replace requests; `document`/`documents` in insert requests) is
omitted entirely from the serialized body: the serialized object has no
key for it at all, hence in particular no such key bound to `null`. -/
theorem claim_C1_absent_optional_omitted :
    (∀ r : FindRequest, r.filter = none → "filter" ∉ r.serialize.map Prod.fst) ∧
    (∀ r : FindRequest, r.projection = none → "projection" ∉ r.serialize.map Prod.fst) ∧
    (∀ r : FindRequest, r.sort = none → "sort" ∉ r.serialize.map Prod.fst) ∧
    (∀ r : FindRequest, r.limit = none → "limit" ∉ r.serialize.map Prod.fst) ∧
    (∀ r : FindRequest, r.skip = none → "skip" ∉ r.serialize.map Prod.fst) ∧
    (∀ r : UpdateRequest, r.upsert = none → "upsert" ∉ r.serialize.map Prod.fst) ∧
    (∀ r : ReplaceRequest, r.upsert = none → "upsert" ∉ r.serialize.map Prod.fst) ∧
    (∀ r : InsertRequest, r.document = none → "document" ∉ r.serialize.map Prod.fst) ∧
    (∀ r : InsertRequest, r.documents = none → "documents" ∉ r.serialize.map Prod.fst) := by
  refine ⟨?_, ?_, ?_, ?_, ?_, ?_, ?_, ?_, ?_⟩
  · rintro ⟨coll, f, pr, so, li, sk⟩ rfl hmem
    cases pr <;> cases so <;> cases li <;> cases sk <;>
      simp [FindRequest.serialize, Collection.serialize, optField] at hmem
  · rintro ⟨coll, f, pr, so, li, sk⟩ rfl hmem
    cases f <;> cases so <;> cases li <;> cases sk <;>
      simp [FindRequest.serialize, Collection.serialize, optField] at hmem
  · rintro ⟨coll, f, pr, so, li, sk⟩ rfl hmem
    cases f <;> cases pr <;> cases li <;> cases sk <;>
      simp [FindRequest.serialize, Collection.serialize, optField] at hmem
  · rintro ⟨coll, f, pr, so, li, sk⟩ rfl hmem
    cases f <;> cases pr <;> cases so <;> cases sk <;>
      simp [FindRequest.serialize, Collection.serialize, optField] at hmem
  · rintro ⟨coll, f, pr, so, li, sk⟩ rfl hmem
    cases f <;> cases pr <;> cases so <;> cases li <;>
      simp [FindRequest.serialize, Collection.serialize, optField] at hmem
  · rintro ⟨coll, flt, upd, ups⟩ rfl hmem
    simp [UpdateRequest.serialize, Collection.serialize, optField] at hmem
  · rintro ⟨coll, flt, rep, ups⟩ rfl hmem
    simp [ReplaceRequest.serialize, Collection.serialize, optField] at hmem
  · rintro ⟨coll, d, ds⟩ rfl hmem
    cases ds <;>
      simp [InsertRequest.serialize, Collection.serialize, optField] at hmem
  · rintro ⟨coll, d, ds⟩ rfl hmem
    cases d <;>
      simp [InsertRequest.serialize, Collection.serialize, optField] at hmem

/-- Witness for C1: an all-absent find request serializes with no
`filter` key. -/
theorem claim_C1_absent_optional_omitted_witness :
    "filter" ∉
      (FindRequest.mk ⟨"ds", "db", "coll"⟩ none none none none none).serialize.map
        Prod.fst :=
  claim_C1_absent_optional_omitted.1 _ rfl

/-- C7: every action request serializes the three collection selector
fields (`dataSource`, `database`, `collection`) flat at the top level of
the body, as sibling keys of the action-specific fields. -/
theorem claim_C7_collection_selector_flat :
    (∀ r : FindRequest,
      ("dataSource", Json.str r.collection.data_source) ∈ r.serialize ∧
      ("database", Json.str r.collection.database) ∈ r.serialize ∧
      ("collection", Json.str r.collection.collection) ∈ r.serialize) ∧
    (∀ r : InsertRequest,
      ("dataSource", Json.str r.collection.data_source) ∈ r.serialize ∧
      ("database", Json.str r.collection.database) ∈ r.serialize ∧
      ("collection", Json.str r.collection.collection) ∈ r.serialize) ∧
    (∀ r : UpdateRequest,
      ("dataSource", Json.str r.collection.data_source) ∈ r.serialize ∧
      ("database", Json.str r.collection.database) ∈ r.serialize ∧
      ("collection", Json.str r.collection.collection) ∈ r.serialize) ∧
    (∀ r : ReplaceRequest,
      ("dataSource", Json.str r.collection.data_source) ∈ r.serialize ∧
      ("database", Json.str r.collection.database) ∈ r.serialize ∧
      ("collection", Json.str r.collection.collection) ∈ r.serialize) ∧
    (∀ r : DeleteRequest,
      ("dataSource", Json.str r.collection.data_source) ∈ r.serialize ∧
      ("database", Json.str r.collection.database) ∈ r.serialize ∧
      ("collection", Json.str r.collection.collection) ∈ r.serialize) ∧
    (∀ r : AggregationRequest,
      ("dataSource", Json.str r.collection.data_source) ∈ r.serialize ∧
      ("database", Json.str r.collection.database) ∈ r.serialize ∧
      ("collection", Json.str r.collection.collection) ∈ r.serialize) := by
  refine ⟨fun r => ?_, fun r => ?_, fun r => ?_, fun r => ?_, fun r => ?_,
    fun r => ?_⟩ <;>
    simp [FindRequest.serialize, InsertRequest.serialize,
      UpdateRequest.serialize, ReplaceRequest.serialize,
      DeleteRequest.serialize, AggregationRequest.serialize,
      Collection.serialize]

/-- C6: every action issues exactly one HTTP POST (by construction of
`PostRequest`, one per call) whose URL is the base URL followed by
`/action/{actionName}`, with the ten action names `findOne`, `find`,
`insertOne`, `insertMany`, `updateOne`, `updateMany`, `replaceOne`,
`deleteOne`, `deleteMany`, `aggregate`, each action mapped to its own
distinct name. -/
theorem claim_C6_endpoint_paths (c : Client) (coll : Collection)
    (f pr so : Option Document) (li sk : Option Int) (d : Document)
    (ds : List Document) (flt upd rep : Document) (ups : Option Bool)
    (pipe : List Document) :
    (c.find_one_post coll f pr).url = c.get_url ++ "/action/findOne" ∧
    (c.find_post coll f pr so li sk).url = c.get_url ++ "/action/find" ∧
    (c.insert_one_post coll d).url = c.get_url ++ "/action/insertOne" ∧
    (c.insert_post coll ds).url = c.get_url ++ "/action/insertMany" ∧
    (c.update_one_post coll flt upd ups).url = c.get_url ++ "/action/updateOne" ∧
    (c.update_post coll flt upd ups).url = c.get_url ++ "/action/updateMany" ∧
    (c.replace_one_post coll flt rep ups).url = c.get_url ++ "/action/replaceOne" ∧
    (c.delete_one_post coll flt).url = c.get_url ++ "/action/deleteOne" ∧
    (c.delete_post coll flt).url = c.get_url ++ "/action/deleteMany" ∧
    (c.aggregate_post coll pipe).url = c.get_url ++ "/action/aggregate" ∧
    List.Nodup ["findOne", "find", "insertOne", "insertMany", "updateOne",
      "updateMany", "replaceOne", "deleteOne", "deleteMany", "aggregate"] :=
  ⟨rfl, rfl, rfl, rfl, rfl, rfl, rfl, rfl, rfl, rfl, by decide⟩

/-- C2: for every action, an HTTP response with status outside `200..299`
yields an error carrying `Some` of that exact status code, with the
response body text (empty when the body cannot be read) appended to the
message after `"; content: "`; no retry is performed (each action
consumes its single HTTP outcome and returns). -/
theorem claim_C2_non2xx_status_error (c : Client) (coll : Collection)
    (f pr so : Option Document) (li sk : Option Int) (d : Document)
    (ds : List Document) (flt upd rep : Document) (ups : Option Bool)
    (pipe : List Document) (s : Nat) (bt : Option String) (bj : Option Json)
    (hs : ¬(200 ≤ s ∧ s < 300)) :
    c.find_one coll f pr (HttpOutcome.response s bt bj) =
      Except.error ⟨some s, "; content: " ++ bt.getD ""⟩ ∧
    c.find coll f pr so li sk (HttpOutcome.response s bt bj) =
      Except.error ⟨some s, "; content: " ++ bt.getD ""⟩ ∧
    c.insert_one coll d (HttpOutcome.response s bt bj) =
      Except.error ⟨some s, "; content: " ++ bt.getD ""⟩ ∧
    c.insert coll ds (HttpOutcome.response s bt bj) =
      Except.error ⟨some s, "; content: " ++ bt.getD ""⟩ ∧
    c.update_one coll flt upd ups (HttpOutcome.response s bt bj) =
      Except.error ⟨some s, "; content: " ++ bt.getD ""⟩ ∧
    c.update coll flt upd ups (HttpOutcome.response s bt bj) =
      Except.error ⟨some s, "; content: " ++ bt.getD ""⟩ ∧
    c.replace_one coll flt rep ups (HttpOutcome.response s bt bj) =
      Except.error ⟨some s, "; content: " ++ bt.getD ""⟩ ∧
    c.delete_one coll flt (HttpOutcome.response s bt bj) =
      Except.error ⟨some s, "; content: " ++ bt.getD ""⟩ ∧
    c.delete coll flt (HttpOutcome.response s bt bj) =
      Except.error ⟨some s, "; content: " ++ bt.getD ""⟩ ∧
    c.aggregate coll pipe (HttpOutcome.response s bt bj) =
      Except.error ⟨some s, "; content: " ++ bt.getD ""⟩ := by
  have hb : statusIsSuccess s = false := by
    simp only [statusIsSuccess, Bool.and_eq_false_iff, decide_eq_false_iff_not]
    omega
  refine ⟨?_, ?_, ?_, ?_, ?_, ?_, ?_, ?_, ?_, ?_⟩ <;>
    simp [Client.find_one, Client.find, Client.insert_one, Client.insert,
      Client.update_one, Client.update, Client.replace_one, Client.delete_one,
      Client.delete, Client.aggregate, runAction, hb]

/-- Witness for C2: a 404 with body `not found` on a concrete find-one
call. -/
theorem claim_C2_non2xx_status_error_witness :
    (Client.mk "app0" "tok" ApiVersion.v1 none).find_one ⟨"ds", "db", "c"⟩
        none none (HttpOutcome.response 404 (some "not found") none) =
      Except.error ⟨some 404, "; content: not found"⟩ :=
  (claim_C2_non2xx_status_error _ _ none none none none none [] [] [] [] []
    none [] 404 (some "not found") none (by decide)).1

/-- C5: the three non-remote error kinds carry no status code and a
discriminating message.  In the shared action pipeline `runAction` a
serialization failure yields `Format error: …`, a transport failure
yields `Failed to send request: …`, and a response-body decode failure
(unparseable body or shape mismatch) yields
`Failed to deserialize response: …`; the transport and decode clauses are
also instantiated on the action methods themselves (every action passes a
successfully serialized body, so the format-error path is reachable only
through the pipeline's serialization argument). -/
theorem claim_C5_non_remote_error_kinds :
    (∀ (α : Type) (dec : Json → Option α) (e : String) (out : HttpOutcome),
      runAction (Except.error e) dec out =
        Except.error ⟨none, "Format error: " ++ e⟩) ∧
    (∀ (c : Client) (coll : Collection) (f pr so : Option Document)
        (li sk : Option Int) (d : Document) (ds : List Document)
        (flt upd rep : Document) (ups : Option Bool) (pipe : List Document)
        (msg : String),
      c.find_one coll f pr (HttpOutcome.sendFailure msg) =
        Except.error ⟨none, "Failed to send request: " ++ msg⟩ ∧
      c.find coll f pr so li sk (HttpOutcome.sendFailure msg) =
        Except.error ⟨none, "Failed to send request: " ++ msg⟩ ∧
      c.insert_one coll d (HttpOutcome.sendFailure msg) =
        Except.error ⟨none, "Failed to send request: " ++ msg⟩ ∧
      c.insert coll ds (HttpOutcome.sendFailure msg) =
        Except.error ⟨none, "Failed to send request: " ++ msg⟩ ∧
      c.update_one coll flt upd ups (HttpOutcome.sendFailure msg) =
        Except.error ⟨none, "Failed to send request: " ++ msg⟩ ∧
      c.update coll flt upd ups (HttpOutcome.sendFailure msg) =
        Except.error ⟨none, "Failed to send request: " ++ msg⟩ ∧
      c.replace_one coll flt rep ups (HttpOutcome.sendFailure msg) =
        Except.error ⟨none, "Failed to send request: " ++ msg⟩ ∧
      c.delete_one coll flt (HttpOutcome.sendFailure msg) =
        Except.error ⟨none, "Failed to send request: " ++ msg⟩ ∧
      c.delete coll flt (HttpOutcome.sendFailure msg) =
        Except.error ⟨none, "Failed to send request: " ++ msg⟩ ∧
      c.aggregate coll pipe (HttpOutcome.sendFailure msg) =
        Except.error ⟨none, "Failed to send request: " ++ msg⟩) ∧
    (∀ (c : Client) (coll : Collection) (f pr : Option Document) (s : Nat)
        (bt : Option String) (bj : Option Json),
      statusIsSuccess s = true →
      (bj = none ∨ ∃ j, bj = some j ∧ decodeFindResponse j = none) →
      c.find_one coll f pr (HttpOutcome.response s bt bj) =
        Except.error ⟨none, decodeFailureMsg⟩) := by
  refine ⟨fun α dec e out => rfl,
    fun c coll f pr so li sk d ds flt upd rep ups pipe msg =>
      ⟨rfl, rfl, rfl, rfl, rfl, rfl, rfl, rfl, rfl, rfl⟩,
    fun c coll f pr s bt bj hs hbj => ?_⟩
  rcases hbj with rfl | ⟨j, rfl, hdec⟩
  · simp [Client.find_one, runAction, hs]
  · simp [Client.find_one, runAction, hs, hdec]

/-- Witness for C5: a 200 response whose body is not valid JSON yields
the decode-failure error on a concrete find-one call. -/
theorem claim_C5_non_remote_error_kinds_witness :
    (Client.mk "app0" "tok" ApiVersion.v1 none).find_one ⟨"ds", "db", "c"⟩
        none none (HttpOutcome.response 200 (some "garbage") none) =
      Except.error ⟨none, decodeFailureMsg⟩ :=
  claim_C5_non_remote_error_kinds.2.2 _ _ none none 200 (some "garbage") none
    rfl (Or.inl rfl)

/-- C9: decoding a success body that omits a field whose typed
counterpart is optional succeeds with that field absent
(`document`/`documents` in a find response, `upsertedId` in an update
response), while a body missing a required field (`deletedCount` in a
delete response, `matchedCount` or `modifiedCount` in an update response)
is a decode error; in particular `{"deletedCount":0}` decodes to a
success result with count 0. -/
theorem claim_C9_response_field_decoding :
    (∀ fields : List (String × Json),
      getField fields "document" = none → getField fields "documents" = none →
      decodeFindResponse (Json.obj fields) = some ⟨none, none⟩) ∧
    (decodeUpdateResponse
        (Json.obj [("matchedCount", Json.num 1), ("modifiedCount", Json.num 2)]) =
      some ⟨1, 2, none⟩) ∧
    (∀ fields : List (String × Json), getField fields "deletedCount" = none →
      decodeDeleteResponse (Json.obj fields) = none) ∧
    (∀ fields : List (String × Json), getField fields "matchedCount" = none →
      decodeUpdateResponse (Json.obj fields) = none) ∧
    (∀ fields : List (String × Json), getField fields "modifiedCount" = none →
      decodeUpdateResponse (Json.obj fields) = none) ∧
    (decodeDeleteResponse (Json.obj [("deletedCount", Json.num 0)]) =
      some ⟨0⟩) := by
  refine ⟨fun fields h1 h2 => ?_, rfl, fun fields h => ?_, fun fields h => ?_,
    fun fields h => ?_, rfl⟩
  · simp [decodeFindResponse, decodeOptField, h1, h2]
  · simp [decodeDeleteResponse, decodeReqField, h]
  · simp [decodeUpdateResponse, decodeReqField, h]
  · cases hm : decodeReqField fields "matchedCount" decodeI32 <;>
      simp [decodeUpdateResponse, decodeReqField, h, hm]

/-- Witness for C9: the empty success body decodes to a find response
with both fields absent. -/
theorem claim_C9_response_field_decoding_witness :
    decodeFindResponse (Json.obj []) = some ⟨none, none⟩ :=
  claim_C9_response_field_decoding.1 [] rfl rfl

/-- C10: the body posted by `find_one` never carries a `sort`, `limit` or
`skip` key (the method hard-codes those fields to `None`), and every key
it does carry is among `dataSource`, `database`, `collection`, `filter`,
`projection`. -/
theorem claim_C10_find_one_key_set (c : Client) (coll : Collection)
    (f pr : Option Document) :
    ((c.find_one_post coll f pr).body.map Prod.fst).filter
        (fun k => k == "sort" || k == "limit" || k == "skip") = [] ∧
    ((c.find_one_post coll f pr).body.map Prod.fst).all
        (fun k => k == "dataSource" || k == "database" || k == "collection" ||
          k == "filter" || k == "projection") = true := by
  cases f <;> cases pr <;> exact ⟨rfl, rfl⟩

/-- C3 is refuted by the code: `InsertResponse` in `src/lib.rs` carries
no `#[serde(rename_all = "camelCase")]` attribute (unlike every other
response struct), so a success body with the lowerCamelCase key
`insertedId` is ignored as an unknown field and decodes with
`inserted_id = None`, whereas the snake_case key `inserted_id` does
populate the field. -/
theorem claim_C3_insert_response_snake_case_keys :
    decodeInsertResponse
        (Json.obj [("insertedId",
          Json.obj [("$oid", Json.str "64d2f8a19b1e8b6f4a3c2d1e")])]) =
      some ⟨none, none⟩ ∧
    decodeInsertResponse
        (Json.obj [("inserted_id",
          Json.obj [("$oid", Json.str "64d2f8a19b1e8b6f4a3c2d1e")])]) =
      some ⟨some ⟨"64d2f8a19b1e8b6f4a3c2d1e"⟩, none⟩ :=
  ⟨rfl, rfl⟩

end RealmWeb
